import Mathlib

/-!
# Verification of the relay's notification bus, CLI entry point and actor route

Shallow embedding of `src/notify.rs`, `src/main.rs` and `src/routes/actor.rs`
from the `relay` repository, together with proofs about the embedded
definitions.  External library behaviour (URI parsing from the `url` /
`activitystreams` crates, UUID parsing from the `uuid` crate) is modelled by
simple executable approximations; the branch structure of the repository's own
code is translated faithfully.
-/

namespace Relay

/-! ## External parsers (models of library code)

`payload.parse::<XsdAnyUri>()` and `payload.parse::<Uuid>()` call external
crates.  We model them as executable functions that succeed on well-formed
inputs and fail otherwise; every claim below depends only on whether a parse
succeeds, never on the internal structure of the parsed value. -/

/-- Scan a character list for the first `"://"`, returning the scheme part
before it and the remainder after it. Models the scheme split performed by the
external `url` crate. -/
def splitScheme : List Char → Option (List Char × List Char)
  | [] => none
  | ':' :: '/' :: '/' :: rest => some ([], rest)
  | c :: rest =>
    match splitScheme rest with
    | some (a, b) => some (c :: a, b)
    | none => none

/-- Model of `str::parse::<XsdAnyUri>` (external `activitystreams`/`url`
crates): a string parses as a URI when it has a nonempty scheme followed by
`://` and a nonempty remainder; the parsed value renders back to the input. -/
def parseXsdAnyUri (s : String) : Option String :=
  match splitScheme s.toList with
  | some (scheme, rest) =>
    if scheme = [] ∨ rest = [] then none else some s
  | none => none

/-- Hexadecimal digit test, as accepted by the external `uuid` crate. -/
def isHexDigit (c : Char) : Bool :=
  (('0' ≤ c) && (c ≤ '9')) || (('a' ≤ c) && (c ≤ 'f')) || (('A' ≤ c) && (c ≤ 'F'))

/-- Model of `str::parse::<Uuid>` (external `uuid` crate): hyphenated form,
five hexadecimal groups of lengths 8-4-4-4-12. -/
def parseUuid (s : String) : Option String :=
  match s.toList.splitOn '-' with
  | [a, b, c, d, e] =>
    if a.length = 8 && b.length = 4 && c.length = 4 && d.length = 4 && e.length = 12
        && (a ++ b ++ c ++ d ++ e).all isHexDigit
    then some s else none
  | _ => none

/-! ## Effects

The handlers in `src/notify.rs` spawn calls to methods of `State`, `ActorCache`
(`actors`), `NodeCache` (`nodes`) and `JobServer` (`queue`).  An `Effect`
records one such call together with its argument. -/

/-- One method call issued by a notification handler in `src/notify.rs`. -/
inductive Effect
  | state_cache_block (host : String)
  | state_bust_block (host : String)
  | state_cache_whitelist (host : String)
  | state_bust_whitelist (host : String)
  | state_cache_listener (iri : String)
  | state_bust_listener (iri : String)
  | actors_cache_follower (iri : String)
  | actors_bust_follower (iri : String)
  | nodes_cache_by_id (uuid : String)
  | nodes_bust_by_id (uuid : String)
  | queue_query_instance (iri : String)
  | queue_query_nodeinfo (iri : String)
deriving DecidableEq, Repr

/-- Recognizes the enqueueing of a `QueryInstance` job. -/
def Effect.is_query_instance : Effect → Bool
  | .queue_query_instance _ => true
  | _ => false

/-- Recognizes the enqueueing of a `QueryNodeinfo` job. -/
def Effect.is_query_nodeinfo : Effect → Bool
  | .queue_query_nodeinfo _ => true
  | _ => false

/-! ## The `Listener` implementations of `src/notify.rs`

The repository defines ten structs (`NewBlocks` … `RmNodes`) implementing the
`Listener` trait, each holding handles to the shared caches; each constructor
below stands for one of them.  `Listener.key` and `Listener.execute` translate
the trait methods, with `execute` returning the list of effects the handler
issues (log calls are not modelled). -/

/-- The ten `Listener` implementations of `src/notify.rs`. -/
inductive Listener
  | NewBlocks
  | NewWhitelists
  | NewListeners
  | NewActors
  | NewNodes
  | RmBlocks
  | RmWhitelists
  | RmListeners
  | RmActors
  | RmNodes
deriving DecidableEq, Repr

/-- `Listener::key` of each implementation in `src/notify.rs`. -/
def Listener.key : Listener → String
  | .NewBlocks => "new_blocks"
  | .NewWhitelists => "new_whitelists"
  | .NewListeners => "new_listeners"
  | .NewActors => "new_actors"
  | .NewNodes => "new_nodes"
  | .RmBlocks => "rm_blocks"
  | .RmWhitelists => "rm_whitelists"
  | .RmListeners => "rm_listeners"
  | .RmActors => "rm_actors"
  | .RmNodes => "rm_nodes"

/-- `Listener::execute` of each implementation in `src/notify.rs`: the effects
issued for a payload.  `NewListeners`, `NewActors`, `RmListeners` and
`RmActors` first parse the payload as a URI, `NewNodes` and `RmNodes` as a
UUID; a failed parse only logs a warning (no effect). -/
def Listener.execute : Listener → String → List Effect
  | .NewBlocks, payload => [.state_cache_block payload]
  | .NewWhitelists, payload => [.state_cache_whitelist payload]
  | .NewListeners, payload =>
    match parseXsdAnyUri payload with
    | some uri => [.queue_query_instance uri, .queue_query_nodeinfo uri,
        .state_cache_listener uri]
    | none => []
  | .NewActors, payload =>
    match parseXsdAnyUri payload with
    | some uri => [.actors_cache_follower uri]
    | none => []
  | .NewNodes, payload =>
    match parseUuid payload with
    | some uuid => [.nodes_cache_by_id uuid]
    | none => []
  | .RmBlocks, payload => [.state_bust_block payload]
  | .RmWhitelists, payload => [.state_bust_whitelist payload]
  | .RmListeners, payload =>
    match parseXsdAnyUri payload with
    | some uri => [.state_bust_listener uri]
    | none => []
  | .RmActors, payload =>
    match parseXsdAnyUri payload with
    | some uri => [.actors_bust_follower uri]
    | none => []
  | .RmNodes, payload =>
    match parseUuid payload with
    | some uuid => [.nodes_bust_by_id uuid]
    | none => []

/-! ## The `Notifier` of `src/notify.rs` -/

/-- A `NOTIFY` message delivered by the database connection
(`tokio_postgres::Notification`). -/
structure Notification where
  channel : String
  payload : String
deriving DecidableEq, Repr

/-- `tokio_postgres::AsyncMessage` as filtered by the stream in
`Notifier::start`: only `Notification` messages pass, notices, errors and
anything else are dropped. -/
inductive AsyncMessage
  | notification (n : Notification)
  | notice
  | err
  | other
deriving DecidableEq, Repr

/-- The `Notifier` struct: a map from channel name to the handlers registered
under it (`HashMap<String, Vec<Box<dyn Listener>>>`, modelled as an
association list in insertion order). -/
structure Notifier where
  listeners : List (String × List Listener)
deriving DecidableEq, Repr

/-- `Notifier::new`. -/
def Notifier.new : Notifier := ⟨[]⟩

/-- `HashMap::entry(key).or_insert(Vec::new())` followed by `push`: append the
handler to the vector stored under `key`, creating the entry if absent. -/
def insertListener : List (String × List Listener) → String → Listener →
    List (String × List Listener)
  | [], k, l => [(k, [l])]
  | (k', ls) :: rest, k, l =>
    if k' = k then (k', ls ++ [l]) :: rest
    else (k', ls) :: insertListener rest k l

/-- `Notifier::register`: store the handler under its own `key()`. -/
def Notifier.register (n : Notifier) (l : Listener) : Notifier :=
  ⟨insertListener n.listeners l.key l⟩

/-- `HashMap::get` on the listener map. -/
def Notifier.get (n : Notifier) (channel : String) : Option (List Listener) :=
  match n.listeners.find? (fun kv => kv.1 == channel) with
  | some kv => some kv.2
  | none => none

/-- The body of the dispatch loop in `Notifier::start` for one notification
(`if let Some(v) = listeners.get(n.channel()) { for l in v { l.execute(n.payload()) } }`). -/
def dispatchOne (nf : Notifier) (msg : Notification) : List Effect :=
  match nf.get msg.channel with
  | some v => v.flatMap (fun l => l.execute msg.payload)
  | none => []

/-- The `while let Some(n) = stream.next().await` loop of `Notifier::start`:
dispatch each delivered notification in turn. -/
def sessionDispatch (nf : Notifier) : List Notification → List Effect
  | [] => []
  | msg :: rest => dispatchOne nf msg ++ sessionDispatch nf rest

/-- The `filter_map` applied to the connection's message stream in
`Notifier::start`: keep notifications, drop notices, errors and the rest. -/
def filterMessages : List AsyncMessage → List Notification
  | [] => []
  | .notification n :: rest => n :: filterMessages rest
  | .notice :: rest => filterMessages rest
  | .err :: rest => filterMessages rest
  | .other :: rest => filterMessages rest

/-! ## The supervision loop of `Notifier::start`

Each iteration of the `loop` first calls `config.connect`.  The environment is
modelled as a list of `ConnAttempt`s, one per iteration: either the connection
attempt fails, or it succeeds and delivers a list of messages before the
connection is lost (the stream ends).  Observable steps of the loop are
recorded as `Action`s. -/

/-- Outcome the environment provides for one `config.connect(NoTls)` call in
`Notifier::start`: failure, or a session delivering some messages and then
dying. -/
inductive ConnAttempt
  | fail
  | ok (msgs : List AsyncMessage)
deriving DecidableEq, Repr

/-- An observable step of the supervision loop in `Notifier::start`. -/
inductive Action
  | connect_attempt
  | sleep (secs : Nat)
  | listen (channels : List String)
  | dispatch (e : Effect)
deriving DecidableEq, Repr

/-- Modelled from the spec: `db::listen` (`src/db.rs` is not among the
sources) issues `LISTEN` on every notification channel; the spec lists the ten
channels. -/
def listenChannels : List String :=
  ["new_blocks", "rm_blocks", "new_whitelists", "rm_whitelists",
   "new_listeners", "rm_listeners", "new_actors", "rm_actors",
   "new_nodes", "rm_nodes"]

/-- Result of one pass through the body of the `loop` in `Notifier::start`.
The Rust loop body contains no `break` or `return`, so `exitLoop` is
representable but never produced. -/
inductive LoopOutcome
  | continueLoop (actions : List Action)
  | exitLoop (actions : List Action)
deriving DecidableEq, Repr

/-- One pass through the body of the `loop` in `Notifier::start`:
`config.connect` fails → log, sleep 5 s, `continue`; it succeeds → spawn
`db::listen`, then dispatch the filtered message stream until the connection
dies, then log and fall through to the next iteration. -/
def loopBody (nf : Notifier) : ConnAttempt → LoopOutcome
  | .fail => .continueLoop [.connect_attempt, .sleep 5]
  | .ok msgs => .continueLoop
      (Action.connect_attempt :: Action.listen listenChannels ::
        (sessionDispatch nf (filterMessages msgs)).map Action.dispatch)

/-- Run the supervision loop over a finite prefix of environment inputs,
collecting the emitted actions and whether the loop has terminated on its own
after consuming them. -/
def runLoop (nf : Notifier) : List ConnAttempt → List Action × Bool
  | [] => ([], false)
  | a :: rest =>
    match loopBody nf a with
    | .exitLoop acts => (acts, true)
    | .continueLoop acts =>
      let p := runLoop nf rest
      (acts ++ p.1, p.2)

/-- Action trace of the supervision loop over a finite environment prefix. -/
def Notifier.run (nf : Notifier) (attempts : List ConnAttempt) : List Action :=
  (runLoop nf attempts).1

/-! ## The registrations of `src/main.rs`

`main` registers the ten handlers on a fresh `Notifier` (lines 69–80) before
calling `start`. -/

/-- The `Notifier` built in `src/main.rs`:
`Notifier::new(...).register(NewBlocks).register(NewWhitelists)…` in source
order. -/
def mainNotifier : Notifier :=
  ((((((((((Notifier.new).register .NewBlocks).register .NewWhitelists).register
    .NewListeners).register .NewActors).register .NewNodes).register
    .RmBlocks).register .RmWhitelists).register .RmListeners).register
    .RmActors).register .RmNodes

/-! ## The entry point `src/main.rs`

`main` is modelled as a pure function from the parsed CLI arguments and the
CPU count to a record of its observable behaviour: the `Result` it returns,
the database calls it makes, and which subsystems it starts. -/

/-- The CLI arguments consumed by `main` (`args.rs` only exposes the getters
used here). -/
structure Args where
  jobsOnly : Bool
  noJobs : Bool
  undo : Bool
  blocks : List String
  whitelists : List String
deriving DecidableEq, Repr

/-- A database mutation issued from `main` on the admin CLI path. -/
inductive DbAction
  | addBlocks (domains : List String)
  | removeBlocks (domains : List String)
  | addWhitelists (domains : List String)
  | removeWhitelists (domains : List String)
deriving DecidableEq, Repr

/-- Observable behaviour of one invocation of `main`. -/
structure MainOutcome where
  /-- The `Result<(), anyhow::Error>` returned by `main`. -/
  result : Except String Unit
  /-- The database mutations issued, in order. -/
  dbActions : List DbAction
  /-- Whether `State::hydrate` ran. -/
  stateHydrated : Bool
  /-- Whether `Notifier::start` was called. -/
  notifierStarted : Bool
  /-- Dedicated worker arbiters spawned on the `--jobs-only` path. -/
  workerSets : Nat
  /-- Whether `HttpServer::run` was reached. -/
  serverStarted : Bool
  /-- Whether `create_workers` runs inside each HTTP server worker. -/
  workersInServer : Bool
  /-- Whether the process parks on `ctrl_c` until interrupted. -/
  waitsForInterrupt : Bool
deriving Repr

/-- The control flow of `main` in `src/main.rs` (lines 44–131): flag-conflict
check, then the admin block/whitelist path with early return, then hydrate,
register the notifier, and either the `--jobs-only` worker loop or the HTTP
server. -/
def mainRun (a : Args) (numCpus : Nat) : MainOutcome :=
  if a.jobsOnly && a.noJobs then
    { result := .error "Either the server or the jobs must be run"
      dbActions := []
      stateHydrated := false
      notifierStarted := false
      workerSets := 0
      serverStarted := false
      workersInServer := false
      waitsForInterrupt := false }
  else if !a.blocks.isEmpty || !a.whitelists.isEmpty then
    { result := .ok ()
      dbActions :=
        if a.undo then
          [.removeBlocks a.blocks, .removeWhitelists a.whitelists]
        else
          [.addBlocks a.blocks, .addWhitelists a.whitelists]
      stateHydrated := false
      notifierStarted := false
      workerSets := 0
      serverStarted := false
      workersInServer := false
      waitsForInterrupt := false }
  else if a.jobsOnly then
    { result := .ok ()
      dbActions := []
      stateHydrated := true
      notifierStarted := true
      workerSets := numCpus
      serverStarted := false
      workersInServer := false
      waitsForInterrupt := true }
  else
    { result := .ok ()
      dbActions := []
      stateHydrated := true
      notifierStarted := true
      workerSets := 0
      serverStarted := true
      workersInServer := !a.noJobs
      waitsForInterrupt := false }

/-- Process exit code determined by the `Result` returned from `main`, per
Rust's `Termination` instance for `Result`: `Ok` → 0, `Err` → 1. -/
def exitCode : Except String Unit → Nat
  | .ok _ => 0
  | .error _ => 1

/-! ## The actor route `src/routes/actor.rs`

The route builds an ActivityStreams `Application` document through the
`activitystreams-new` builder API; `ActorDocument` records the fields the
builder sets.  `Config::generate_url` lives in `config.rs`, which is not among
the sources, so it is modelled from the spec. -/

/-- The `UrlKind` variants used by `src/routes/actor.rs`. -/
inductive UrlKind
  | Actor
  | Inbox
  | Outbox
  | Followers
  | Following
  | MainKey
deriving DecidableEq, Repr

/-- The configuration fields relevant to URL generation. -/
structure Config where
  hostname : String
  https : Bool
deriving DecidableEq, Repr

/-- Modelled from the spec: `Config::generate_url` (`config.rs` is not among
the sources) renders the relay's own URLs from the scheme (`HTTPS` flag), the
`HOSTNAME`, and the route paths listed in the spec (`/actor`, `/inbox`, …);
the key id fragment is the main key of the actor document. -/
def Config.generate_url (c : Config) (k : UrlKind) : String :=
  let base := (if c.https then "https://" else "http://") ++ c.hostname
  match k with
  | .Actor => base ++ "/actor"
  | .Inbox => base ++ "/inbox"
  | .Outbox => base ++ "/outbox"
  | .Followers => base ++ "/followers"
  | .Following => base ++ "/following"
  | .MainKey => base ++ "/actor#main-key"

/-- The part of `State` read by the actor route: the relay's public key,
modelled by its PKCS#8 PEM rendering (`state.public_key.to_pem_pkcs8()`). -/
structure StateData where
  publicKeyPem : String
deriving DecidableEq, Repr

/-- The `PublicKeyInner` struct of `src/apub.rs` as serialized into the actor
document. -/
structure PublicKeyInner where
  id : String
  owner : String
  public_key_pem : String
deriving DecidableEq, Repr

/-- The `Endpoints` struct set on the actor document. -/
structure Endpoints where
  shared_inbox : Option String
deriving DecidableEq, Repr

/-- The fields of the `Application` actor document built by
`src/routes/actor.rs`. -/
structure ActorDocument where
  kind : String
  id : Option String
  inbox : String
  outbox : Option String
  followers : Option String
  following : Option String
  preferred_username : Option String
  summary : Option String
  name : Option String
  url : Option String
  public_key : PublicKeyInner
  endpoints : Option Endpoints
deriving DecidableEq, Repr

/-- The `.parse()?` calls of `src/routes/actor.rs`: parse a generated URL as
an `XsdAnyUri`, propagating failure as an error. -/
def parseUri (s : String) : Except String String :=
  match parseXsdAnyUri s with
  | some u => .ok u
  | none => .error "uri parse error"

/-- `route` of `src/routes/actor.rs`: build the `Application` document.  The
source parses each generated URL with `?` propagation; the builder calls are
recorded as the corresponding record fields. -/
def actorRoute (state : StateData) (config : Config) :
    Except String ActorDocument :=
  match parseUri (config.generate_url .Inbox) with
  | .error e => .error e
  | .ok inboxUri =>
  match parseUri (config.generate_url .MainKey) with
  | .error e => .error e
  | .ok keyId =>
  match parseUri (config.generate_url .Actor) with
  | .error e => .error e
  | .ok ownerUri =>
  match parseUri (config.generate_url .Actor) with
  | .error e => .error e
  | .ok actorId =>
  match parseUri (config.generate_url .Actor) with
  | .error e => .error e
  | .ok urlUri =>
  match parseUri (config.generate_url .Outbox) with
  | .error e => .error e
  | .ok outboxUri =>
  match parseUri (config.generate_url .Followers) with
  | .error e => .error e
  | .ok followersUri =>
  match parseUri (config.generate_url .Following) with
  | .error e => .error e
  | .ok followingUri =>
  match parseUri (config.generate_url .Inbox) with
  | .error e => .error e
  | .ok sharedInboxUri =>
    .ok
      { kind := "Application"
        id := some actorId
        inbox := inboxUri
        outbox := some outboxUri
        followers := some followersUri
        following := some followingUri
        preferred_username := some "relay"
        summary := some "AodeRelay bot"
        name := some "AodeRelay"
        url := some urlUri
        public_key :=
          { id := keyId
            owner := ownerUri
            public_key_pem := state.publicKeyPem }
        endpoints := some { shared_inbox := some sharedInboxUri } }

/-- Concrete actor document produced by `actorRoute` at a sample
configuration. -/
def sampleActorDoc : ActorDocument :=
  { kind := "Application"
    id := some "https://relay.example/actor"
    inbox := "https://relay.example/inbox"
    outbox := some "https://relay.example/outbox"
    followers := some "https://relay.example/followers"
    following := some "https://relay.example/following"
    preferred_username := some "relay"
    summary := some "AodeRelay bot"
    name := some "AodeRelay"
    url := some "https://relay.example/actor"
    public_key :=
      { id := "https://relay.example/actor#main-key"
        owner := "https://relay.example/actor"
        public_key_pem := "PEMDATA" }
    endpoints := some { shared_inbox := some "https://relay.example/inbox" } }

/-! ## Helper lemmas -/

/-- The URI model returns the input string on success. -/
theorem parseXsdAnyUri_some (s u : String) (h : parseXsdAnyUri s = some u) :
    u = s := by
  unfold parseXsdAnyUri at h
  split at h
  · split at h
    · exact absurd h (by simp)
    · exact (Option.some.inj h).symm
  · exact absurd h (by simp)

/-- `parseUri` returns the input string on success. -/
theorem parseUri_ok (s u : String) (h : parseUri s = .ok u) : u = s := by
  unfold parseUri at h
  split at h
  · rename_i v hv
    cases h
    exact parseXsdAnyUri_some s u hv
  · exact absurd h (by simp)

/-- Dispatching a session splits over list concatenation. -/
theorem sessionDispatch_append (nf : Notifier) (xs ys : List Notification) :
    sessionDispatch nf (xs ++ ys)
      = sessionDispatch nf xs ++ sessionDispatch nf ys := by
  induction xs with
  | nil => rfl
  | cons m rest ih => simp [sessionDispatch, ih]

/-- `dispatchOne` in terms of the registered-handler list, with `[]` for an
unregistered channel. -/
theorem dispatchOne_eq (nf : Notifier) (m : Notification) :
    dispatchOne nf m
      = ((nf.get m.channel).getD []).flatMap (fun l => l.execute m.payload) := by
  unfold dispatchOne
  cases nf.get m.channel <;> simp

/-- The supervision loop body never exits: the Rust `loop` contains no
`break` or `return`. -/
theorem runLoop_never_exits (nf : Notifier) (attempts : List ConnAttempt) :
    (runLoop nf attempts).2 = false := by
  induction attempts with
  | nil => rfl
  | cons a rest ih => cases a <;> simp [runLoop, loopBody, ih]

/-! ## Claim theorems -/

/-- Claim C1, counterexample to the claim as stated.  The claim says that
whenever the bus's connection is lost it sleeps 5 seconds before
reconnecting.  In the trace where the environment provides two successful
sessions (the first one's connection is lost, ending its message stream), the
loop immediately reconnects and re-subscribes: no `sleep` action occurs
anywhere between or around the two sessions. -/
theorem reconnect_without_sleep :
    Notifier.run mainNotifier [ConnAttempt.ok [], ConnAttempt.ok []]
      = [Action.connect_attempt, Action.listen listenChannels,
         Action.connect_attempt, Action.listen listenChannels]
    ∧ Action.sleep 5 ∉
        Notifier.run mainNotifier [ConnAttempt.ok [], ConnAttempt.ok []] := by
  constructor
  · rfl
  · decide

/-- Claim C1, amended: the notification bus runs an infinite supervision
loop; it never terminates on its own; on loss of its connection it
immediately attempts to reconnect, re-issues `LISTEN` on every channel, and
resumes dispatching; each failed connection attempt is followed by a
5-second sleep before retrying. -/
theorem notifier_supervision (nf : Notifier) (attempts : List ConnAttempt)
    (msgs : List AsyncMessage) :
    (runLoop nf attempts).2 = false
    ∧ loopBody nf ConnAttempt.fail
        = .continueLoop [Action.connect_attempt, Action.sleep 5]
    ∧ loopBody nf (ConnAttempt.ok msgs)
        = .continueLoop (Action.connect_attempt :: Action.listen listenChannels ::
            (sessionDispatch nf (filterMessages msgs)).map Action.dispatch) :=
  ⟨runLoop_never_exits nf attempts, rfl, rfl⟩

/-- Claim C2: within one connection session, each delivered notification is
dispatched, in transport order, to every handler registered under its channel
(receiving the payload); a notification on a channel with no registered
handler contributes nothing. -/
theorem dispatch_in_transport_order (nf : Notifier) (xs ys : List Notification)
    (m : Notification) :
    sessionDispatch nf (xs ++ m :: ys)
      = sessionDispatch nf xs
        ++ ((nf.get m.channel).getD []).flatMap (fun l => l.execute m.payload)
        ++ sessionDispatch nf ys := by
  rw [sessionDispatch_append]
  simp [sessionDispatch, dispatchOne_eq, List.append_assoc]

/-- Claim C3: `main` registers exactly one handler per notification channel,
and each handler invokes the corresponding cache or bust method with the
notification payload (parsed first where the channel carries an IRI or
UUID). -/
theorem startup_registrations (p q u w : String)
    (hu : parseXsdAnyUri p = some u) (hw : parseUuid q = some w) :
    (mainNotifier.get "new_blocks" = some [Listener.NewBlocks]
      ∧ Listener.NewBlocks.execute p = [Effect.state_cache_block p])
    ∧ (mainNotifier.get "rm_blocks" = some [Listener.RmBlocks]
      ∧ Listener.RmBlocks.execute p = [Effect.state_bust_block p])
    ∧ (mainNotifier.get "new_whitelists" = some [Listener.NewWhitelists]
      ∧ Listener.NewWhitelists.execute p = [Effect.state_cache_whitelist p])
    ∧ (mainNotifier.get "rm_whitelists" = some [Listener.RmWhitelists]
      ∧ Listener.RmWhitelists.execute p = [Effect.state_bust_whitelist p])
    ∧ (mainNotifier.get "new_listeners" = some [Listener.NewListeners]
      ∧ Effect.state_cache_listener u ∈ Listener.NewListeners.execute p)
    ∧ (mainNotifier.get "rm_listeners" = some [Listener.RmListeners]
      ∧ Listener.RmListeners.execute p = [Effect.state_bust_listener u])
    ∧ (mainNotifier.get "new_actors" = some [Listener.NewActors]
      ∧ Listener.NewActors.execute p = [Effect.actors_cache_follower u])
    ∧ (mainNotifier.get "rm_actors" = some [Listener.RmActors]
      ∧ Listener.RmActors.execute p = [Effect.actors_bust_follower u])
    ∧ (mainNotifier.get "new_nodes" = some [Listener.NewNodes]
      ∧ Listener.NewNodes.execute q = [Effect.nodes_cache_by_id w])
    ∧ (mainNotifier.get "rm_nodes" = some [Listener.RmNodes]
      ∧ Listener.RmNodes.execute q = [Effect.nodes_bust_by_id w]) := by
  refine ⟨⟨by decide, rfl⟩, ⟨by decide, rfl⟩, ⟨by decide, rfl⟩, ⟨by decide, rfl⟩,
    ⟨by decide, ?_⟩, ⟨by decide, ?_⟩, ⟨by decide, ?_⟩, ⟨by decide, ?_⟩,
    ⟨by decide, ?_⟩, ⟨by decide, ?_⟩⟩
  all_goals simp [Listener.execute, hu, hw]

/-- Witness for `startup_registrations` at a concrete IRI and UUID payload. -/
theorem startup_registrations_witness :
    mainNotifier.get "rm_nodes" = some [Listener.RmNodes]
    ∧ Listener.RmNodes.execute "67e55044-10b1-426f-9247-bb680e5fe0c8"
        = [Effect.nodes_bust_by_id "67e55044-10b1-426f-9247-bb680e5fe0c8"] :=
  (startup_registrations "https://a.example/actor"
    "67e55044-10b1-426f-9247-bb680e5fe0c8" "https://a.example/actor"
    "67e55044-10b1-426f-9247-bb680e5fe0c8"
    (by decide) (by decide)).2.2.2.2.2.2.2.2.2

/-- Claim C4: dispatching a `new_listeners` notification whose payload parses
as an IRI enqueues exactly one `QueryInstance` job and exactly one
`QueryNodeinfo` job for that IRI, and caches the listener in `State`. -/
theorem new_listener_enqueues_discovery (p u : String)
    (h : parseXsdAnyUri p = some u) :
    (dispatchOne mainNotifier ⟨"new_listeners", p⟩).filter Effect.is_query_instance
        = [Effect.queue_query_instance u]
    ∧ (dispatchOne mainNotifier ⟨"new_listeners", p⟩).filter Effect.is_query_nodeinfo
        = [Effect.queue_query_nodeinfo u]
    ∧ Effect.state_cache_listener u ∈
        dispatchOne mainNotifier ⟨"new_listeners", p⟩ := by
  have hg : mainNotifier.get "new_listeners" = some [Listener.NewListeners] := by
    decide
  refine ⟨?_, ?_, ?_⟩ <;>
    simp [dispatchOne, hg, Listener.execute, h,
      Effect.is_query_instance, Effect.is_query_nodeinfo, List.filter]

/-- Witness for `new_listener_enqueues_discovery` at a concrete IRI. -/
theorem new_listener_enqueues_discovery_witness :
    (dispatchOne mainNotifier
        ⟨"new_listeners", "https://a.example/inbox"⟩).filter Effect.is_query_instance
        = [Effect.queue_query_instance "https://a.example/inbox"]
    ∧ (dispatchOne mainNotifier
        ⟨"new_listeners", "https://a.example/inbox"⟩).filter Effect.is_query_nodeinfo
        = [Effect.queue_query_nodeinfo "https://a.example/inbox"]
    ∧ Effect.state_cache_listener "https://a.example/inbox" ∈
        dispatchOne mainNotifier ⟨"new_listeners", "https://a.example/inbox"⟩ :=
  new_listener_enqueues_discovery "https://a.example/inbox"
    "https://a.example/inbox" (by decide)

/-- Claim C10: every handler whose payload must parse (IRI for
`new_listeners`, `rm_listeners`, `new_actors`, `rm_actors`; UUID for
`new_nodes`, `rm_nodes`) issues no effect at all on a payload that fails to
parse: no cache entry is added or evicted and no job is queued. -/
theorem unparsable_payload_ignored (p : String)
    (hIri : parseXsdAnyUri p = none) (hUuid : parseUuid p = none) :
    Listener.NewListeners.execute p = []
    ∧ Listener.RmListeners.execute p = []
    ∧ Listener.NewActors.execute p = []
    ∧ Listener.RmActors.execute p = []
    ∧ Listener.NewNodes.execute p = []
    ∧ Listener.RmNodes.execute p = [] := by
  refine ⟨?_, ?_, ?_, ?_, ?_, ?_⟩ <;> simp [Listener.execute, hIri, hUuid]

/-- Witness for `unparsable_payload_ignored` at a concrete unparsable
payload. -/
theorem unparsable_payload_ignored_witness :
    Listener.NewListeners.execute "not a uri" = []
    ∧ Listener.RmListeners.execute "not a uri" = []
    ∧ Listener.NewActors.execute "not a uri" = []
    ∧ Listener.RmActors.execute "not a uri" = []
    ∧ Listener.NewNodes.execute "not a uri" = []
    ∧ Listener.RmNodes.execute "not a uri" = [] :=
  unparsable_payload_ignored "not a uri" (by decide) (by decide)

/-- Claim C5, counterexample to the claim as stated.  With `--jobs-only` and
`--no-jobs` both given, `main` returns `Err`, and Rust's `Termination`
instance turns that into exit code 1, not the claimed 2. -/
theorem conflicting_flags_exit_code_not_two :
    exitCode (mainRun ⟨true, true, false, [], []⟩ 4).result = 1
    ∧ exitCode (mainRun ⟨true, true, false, [], []⟩ 4).result ≠ 2 := by
  constructor
  · rfl
  · intro h
    simp [mainRun, exitCode] at h

/-- Claim C5, amended: with `--jobs-only` and `--no-jobs` both given, the
process terminates with exit code 1 without starting the server or the
workers; the exit code is 0 on success and 1 on failure. -/
theorem conflicting_flags_terminate (a : Args) (n : Nat) (e : String)
    (h1 : a.jobsOnly = true) (h2 : a.noJobs = true) :
    exitCode (mainRun a n).result = 1
    ∧ (mainRun a n).serverStarted = false
    ∧ (mainRun a n).workerSets = 0
    ∧ (mainRun a n).workersInServer = false
    ∧ exitCode (Except.ok ()) = 0
    ∧ exitCode (Except.error e) = 1 := by
  refine ⟨?_, ?_, ?_, ?_, rfl, rfl⟩ <;> simp [mainRun, h1, h2, exitCode]

/-- Witness for `conflicting_flags_terminate` at concrete arguments. -/
theorem conflicting_flags_terminate_witness :
    exitCode (mainRun ⟨true, true, true, [], []⟩ 8).result = 1
    ∧ (mainRun ⟨true, true, true, [], []⟩ 8).serverStarted = false
    ∧ (mainRun ⟨true, true, true, [], []⟩ 8).workerSets = 0
    ∧ (mainRun ⟨true, true, true, [], []⟩ 8).workersInServer = false
    ∧ exitCode (Except.ok ()) = 0
    ∧ exitCode (Except.error "boom") = 1 :=
  conflicting_flags_terminate ⟨true, true, true, [], []⟩ 8 "boom" rfl rfl

/-- Claim C6: an admin CLI invocation carrying block and/or whitelist domains
(reaching the admin path, i.e. the mutually exclusive run-mode flags are not
both set) adds the given domains to the blocklist and whitelist respectively,
and with `--undo` removes them instead. -/
theorem admin_undo_semantics (a : Args) (n : Nat)
    (hflags : (a.jobsOnly && a.noJobs) = false)
    (hdomains : a.blocks ≠ [] ∨ a.whitelists ≠ []) :
    (a.undo = false → (mainRun a n).dbActions
        = [DbAction.addBlocks a.blocks, DbAction.addWhitelists a.whitelists])
    ∧ (a.undo = true → (mainRun a n).dbActions
        = [DbAction.removeBlocks a.blocks,
           DbAction.removeWhitelists a.whitelists]) := by
  have hne : (!a.blocks.isEmpty || !a.whitelists.isEmpty) = true := by
    rcases hdomains with h | h <;> simp [List.isEmpty_iff, h]
  constructor <;> intro hu <;> simp [mainRun, hflags, hne, hu]

/-- Witness for `admin_undo_semantics` at concrete arguments. -/
theorem admin_undo_semantics_witness :
    (false = false →
      (mainRun ⟨false, false, false, ["bad.example"], []⟩ 1).dbActions
        = [DbAction.addBlocks ["bad.example"], DbAction.addWhitelists []])
    ∧ (false = true →
      (mainRun ⟨false, false, false, ["bad.example"], []⟩ 1).dbActions
        = [DbAction.removeBlocks ["bad.example"],
           DbAction.removeWhitelists []]) :=
  admin_undo_semantics ⟨false, false, false, ["bad.example"], []⟩ 1
    rfl (Or.inl (by decide))

/-- Claim C7, counterexample to the claim as stated.  With `--jobs-only` set
and `--no-jobs` unset but a `--block` domain also given, the admin CLI path
runs first and returns: no worker set is started (0, not one per CPU) and the
process does not wait for an interrupt. -/
theorem jobs_only_preempted_by_admin_path :
    (mainRun ⟨true, false, false, ["a.example"], []⟩ 4).workerSets = 0
    ∧ (mainRun ⟨true, false, false, ["a.example"], []⟩ 4).workerSets ≠ 4
    ∧ (mainRun ⟨true, false, false, ["a.example"], []⟩ 4).waitsForInterrupt
        = false := by
  refine ⟨rfl, ?_, rfl⟩
  intro h
  simp [mainRun] at h

/-- Claim C7, amended: with `--jobs-only` given, `--no-jobs` not given, and no
block or whitelist domains on the command line, the process starts one worker
set per logical CPU, never starts the HTTP server, and parks until
interrupted. -/
theorem jobs_only_runs_workers (a : Args) (n : Nat)
    (h1 : a.jobsOnly = true) (h2 : a.noJobs = false)
    (h3 : a.blocks = []) (h4 : a.whitelists = []) :
    (mainRun a n).workerSets = n
    ∧ (mainRun a n).serverStarted = false
    ∧ (mainRun a n).workersInServer = false
    ∧ (mainRun a n).waitsForInterrupt = true
    ∧ (mainRun a n).result = .ok () := by
  refine ⟨?_, ?_, ?_, ?_, ?_⟩ <;> simp [mainRun, h1, h2, h3, h4]

/-- Witness for `jobs_only_runs_workers` at concrete arguments. -/
theorem jobs_only_runs_workers_witness :
    (mainRun ⟨true, false, false, [], []⟩ 8).workerSets = 8
    ∧ (mainRun ⟨true, false, false, [], []⟩ 8).serverStarted = false
    ∧ (mainRun ⟨true, false, false, [], []⟩ 8).workersInServer = false
    ∧ (mainRun ⟨true, false, false, [], []⟩ 8).waitsForInterrupt = true
    ∧ (mainRun ⟨true, false, false, [], []⟩ 8).result = .ok () :=
  jobs_only_runs_workers ⟨true, false, false, [], []⟩ 8 rfl rfl rfl rfl

/-- Claim C9, counterexample to the claim as stated.  Invoked with a block
domain but also with both `--jobs-only` and `--no-jobs`, the flag-conflict
check runs first: no database mutation is performed and the process exits
with code 1 rather than successfully. -/
theorem admin_path_blocked_by_flag_conflict :
    (mainRun ⟨true, true, false, ["evil.example"], []⟩ 1).dbActions = []
    ∧ exitCode (mainRun ⟨true, true, false, ["evil.example"], []⟩ 1).result
        = 1 := by
  exact ⟨rfl, rfl⟩

/-- Claim C9, amended: invoked with block and/or whitelist domains and without
the conflicting `--jobs-only`/`--no-jobs` pair, the process performs only the
corresponding database additions or removals and exits successfully; the HTTP
server, the job workers, the notification bus and the in-memory state are
never started or touched in that invocation. -/
theorem admin_invocation_frame (a : Args) (n : Nat)
    (hflags : (a.jobsOnly && a.noJobs) = false)
    (hdomains : a.blocks ≠ [] ∨ a.whitelists ≠ []) :
    (mainRun a n).result = .ok ()
    ∧ ((mainRun a n).dbActions
        = if a.undo then
            [DbAction.removeBlocks a.blocks, DbAction.removeWhitelists a.whitelists]
          else
            [DbAction.addBlocks a.blocks, DbAction.addWhitelists a.whitelists])
    ∧ (mainRun a n).serverStarted = false
    ∧ (mainRun a n).workerSets = 0
    ∧ (mainRun a n).workersInServer = false
    ∧ (mainRun a n).notifierStarted = false
    ∧ (mainRun a n).stateHydrated = false
    ∧ (mainRun a n).waitsForInterrupt = false := by
  have hne : (!a.blocks.isEmpty || !a.whitelists.isEmpty) = true := by
    rcases hdomains with h | h <;> simp [List.isEmpty_iff, h]
  refine ⟨?_, ?_, ?_, ?_, ?_, ?_, ?_, ?_⟩ <;> simp [mainRun, hflags, hne]

/-- Witness for `admin_invocation_frame` at concrete arguments. -/
theorem admin_invocation_frame_witness :
    (mainRun ⟨false, false, true, [], ["good.example"]⟩ 2).result = .ok ()
    ∧ ((mainRun ⟨false, false, true, [], ["good.example"]⟩ 2).dbActions
        = if true then
            [DbAction.removeBlocks [], DbAction.removeWhitelists ["good.example"]]
          else
            [DbAction.addBlocks [], DbAction.addWhitelists ["good.example"]])
    ∧ (mainRun ⟨false, false, true, [], ["good.example"]⟩ 2).serverStarted = false
    ∧ (mainRun ⟨false, false, true, [], ["good.example"]⟩ 2).workerSets = 0
    ∧ (mainRun ⟨false, false, true, [], ["good.example"]⟩ 2).workersInServer = false
    ∧ (mainRun ⟨false, false, true, [], ["good.example"]⟩ 2).notifierStarted = false
    ∧ (mainRun ⟨false, false, true, [], ["good.example"]⟩ 2).stateHydrated = false
    ∧ (mainRun ⟨false, false, true, [], ["good.example"]⟩ 2).waitsForInterrupt
        = false :=
  admin_invocation_frame ⟨false, false, true, [], ["good.example"]⟩ 2
    rfl (Or.inr (by decide))

/-- Claim C8: whenever the `GET /actor` route succeeds, the returned document
is an ActivityStreams `Application` carrying an id, inbox, outbox, followers
and following URLs, a `publicKey` object whose id, owner and `publicKeyPem`
fields are set, `endpoints.sharedInbox`, and `preferredUsername` equal to
`"relay"`. -/
theorem actor_document_fields (st : StateData) (cfg : Config)
    (doc : ActorDocument) (h : actorRoute st cfg = .ok doc) :
    doc.kind = "Application"
    ∧ doc.id = some (cfg.generate_url .Actor)
    ∧ doc.inbox = cfg.generate_url .Inbox
    ∧ doc.outbox = some (cfg.generate_url .Outbox)
    ∧ doc.followers = some (cfg.generate_url .Followers)
    ∧ doc.following = some (cfg.generate_url .Following)
    ∧ doc.public_key.id = cfg.generate_url .MainKey
    ∧ doc.public_key.owner = cfg.generate_url .Actor
    ∧ doc.public_key.public_key_pem = st.publicKeyPem
    ∧ doc.endpoints = some { shared_inbox := some (cfg.generate_url .Inbox) }
    ∧ doc.preferred_username = some "relay" := by
  unfold actorRoute at h
  cases h1 : parseUri (cfg.generate_url .Inbox) with
  | error e => simp [h1] at h
  | ok v1 =>
  simp only [h1] at h
  cases h2 : parseUri (cfg.generate_url .MainKey) with
  | error e => simp [h2] at h
  | ok v2 =>
  simp only [h2] at h
  cases h3 : parseUri (cfg.generate_url .Actor) with
  | error e => simp [h3] at h
  | ok v3 =>
  simp only [h3] at h
  cases h4 : parseUri (cfg.generate_url .Outbox) with
  | error e => simp [h4] at h
  | ok v4 =>
  simp only [h4] at h
  cases h5 : parseUri (cfg.generate_url .Followers) with
  | error e => simp [h5] at h
  | ok v5 =>
  simp only [h5] at h
  cases h6 : parseUri (cfg.generate_url .Following) with
  | error e => simp [h6] at h
  | ok v6 =>
  simp only [h6] at h
  have e1 := parseUri_ok _ _ h1
  have e2 := parseUri_ok _ _ h2
  have e3 := parseUri_ok _ _ h3
  have e4 := parseUri_ok _ _ h4
  have e5 := parseUri_ok _ _ h5
  have e6 := parseUri_ok _ _ h6
  cases h
  subst e1 e2 e3 e4 e5 e6
  exact ⟨rfl, rfl, rfl, rfl, rfl, rfl, rfl, rfl, rfl, rfl, rfl⟩

/-- Witness for `actor_document_fields` at a concrete configuration and
state. -/
theorem actor_document_fields_witness :
    sampleActorDoc.kind = "Application"
    ∧ sampleActorDoc.preferred_username = some "relay"
    ∧ sampleActorDoc.public_key.public_key_pem = "PEMDATA" :=
  ⟨(actor_document_fields ⟨"PEMDATA"⟩ ⟨"relay.example", true⟩ sampleActorDoc
      (by rfl)).1,
   (actor_document_fields ⟨"PEMDATA"⟩ ⟨"relay.example", true⟩ sampleActorDoc
      (by rfl)).2.2.2.2.2.2.2.2.2.2,
   (actor_document_fields ⟨"PEMDATA"⟩ ⟨"relay.example", true⟩ sampleActorDoc
      (by rfl)).2.2.2.2.2.2.2.2.1⟩

end Relay

